import Mathlib

/-!
# Verification of the Punchh MCP gateway (src/server.ts and src/unnamed/part_000)

This development gives a shallow embedding of the two TypeScript server files
and proves properties of the session dispatcher, the session store, the PII
redaction code in the tool handlers, the upstream URL construction, and the
argument validation of the registered tools.

The repository holds two variants of the same server:
* `src/server.ts` — referred to below as the "server" variant;
* `src/unnamed/part_000` — referred to below as the "part0" variant.
They differ in a few places (close handler on the transport, URL escaping in
the listTransactions handler, null guard in the transaction redaction loop);
the embedding keeps one definition per variant wherever they differ and a
shared definition where the code is identical.
-/

namespace PunchhMCP

/-! ## JSON value model

`r.json()` in both handlers produces an arbitrary JSON document; the redaction
loops walk it with JavaScript member access and truthiness tests.  We model
JSON documents with an inductive type; objects are association lists in
insertion order (JavaScript objects cannot hold duplicate keys, and all the
documents the code builds or reads are parse results, so the first-match
lookup below coincides with JavaScript property access). -/

inductive JsonValue where
  | null : JsonValue
  | bool (b : Bool) : JsonValue
  | num (n : Int) : JsonValue
  | str (s : String) : JsonValue
  | arr (xs : List JsonValue) : JsonValue
  | obj (fields : List (String × JsonValue)) : JsonValue

/-- Property read `o[k]` on an association list: first binding wins.
`none` plays the role of JavaScript `undefined` (key absent). -/
def getF {α : Type} : List (String × α) → String → Option α
  | [], _ => none
  | (k2, v) :: rest, k => if k2 = k then some v else getF rest k

/-- Property write `o[k] = v`: replaces the first binding of `k`, appends a
binding when the key is absent. -/
def setF {α : Type} : List (String × α) → String → α → List (String × α)
  | [], k, v => [(k, v)]
  | (k2, w) :: rest, k, v => if k2 = k then (k2, v) :: rest else (k2, w) :: setF rest k v

/-- JavaScript truthiness of a JSON value (`if (x) ...`): `null`, `false`,
`0` and the empty string are falsy, everything else is truthy. -/
def truthy : JsonValue → Bool
  | .null => false
  | .bool b => b
  | .num n => !(n == 0)
  | .str s => !(s == "")
  | .arr _ => true
  | .obj _ => true

/-- Truthiness of an optional value; `none` models `undefined`, which is
falsy. -/
def truthyOpt : Option JsonValue → Bool
  | none => false
  | some v => truthy v

/-! ## Redaction (both tool handlers)

`server.ts` lines 35–38 and 58–59; `part_000` lines 49–50 and 73–76. -/

/-- The fixed placeholder written into `email` fields. -/
def emailMask : JsonValue := .str "redacted@example.com"

/-- The fixed-length mask (ten asterisks) written into `phone` fields. -/
def phoneMask : JsonValue := .str "**********"

/-- First statement of the masking of one customer object:
`if (c?.email) c.email = 'redacted@example.com'`. -/
def redactEmail (cf : List (String × JsonValue)) : List (String × JsonValue) :=
  if truthyOpt (getF cf "email") then setF cf "email" emailMask else cf

/-- Second statement of the masking of one customer object:
`if (c?.phone) c.phone = '**********'`. -/
def redactPhone (cf : List (String × JsonValue)) : List (String × JsonValue) :=
  if truthyOpt (getF cf "phone") then setF cf "phone" phoneMask else cf

/-- The masking applied to one customer object `c`: the email statement then
the phone statement.  Identical in both files and both handlers. -/
def redactCustomerObj (cf : List (String × JsonValue)) : List (String × JsonValue) :=
  redactPhone (redactEmail cf)

/-- Top-level redaction of the `getCustomer` response (`server.ts` 58–59,
`part_000` 49–50): the checks use optional chaining on `data`, and property
access on a non-object primitive yields `undefined`, so only an object
payload is modified. -/
def redactCustomer : JsonValue → JsonValue
  | .obj fs => .obj (redactCustomerObj fs)
  | v => v

/-- One `transactions` element `t` as mutated by the loop body of
`server.ts` lines 36–37: `if (t.customer?.email) ...` — note `t` itself is
*not* optional-chained, so a `null` element raises a `TypeError`.  Property
access on a non-null primitive yields `undefined` and the element is left
alone; an object element has its `customer` object masked when present. -/
def redactTxnFields (fs : List (String × JsonValue)) : List (String × JsonValue) :=
  match getF fs "customer" with
  | some (.obj cf) => setF fs "customer" (.obj (redactCustomerObj cf))
  | _ => fs

/-- `server.ts` loop body (raises on a `null` element). -/
def redactTxnServer : JsonValue → Except String JsonValue
  | .null => .error "TypeError: cannot read properties of null"
  | .obj fs => .ok (.obj (redactTxnFields fs))
  | v => .ok v

/-- `part_000` loop body, lines 74–75: `t?.customer?.email` — the extra
optional chain on `t` makes a `null` element a no-op. -/
def redactTxnPart0 : JsonValue → JsonValue
  | .obj fs => .obj (redactTxnFields fs)
  | v => v

/-- Error-propagating map over a list, used for the `for`-loop over the
transactions whose body can raise. -/
def mapME {α β ε : Type} (f : α → Except ε β) : List α → Except ε (List β)
  | [] => .ok []
  | x :: xs =>
    match f x with
    | .error e => .error e
    | .ok y =>
      match mapME f xs with
      | .error e => .error e
      | .ok ys => .ok (y :: ys)

/-- The iteration target of `for (const t of data?.transactions ?? [])`:
an absent or `null` field falls back to `[]`; an array iterates its
elements; a string iterates its characters (as one-character strings);
any other value is not iterable and raises a `TypeError`.
Returned as `none` when iteration would raise. -/
def txnElems (fs : List (String × JsonValue)) : Option (List JsonValue) :=
  match getF fs "transactions" with
  | none => some []
  | some .null => some []
  | some (.arr xs) => some xs
  | some (.str s) => some (s.data.map fun c => .str (String.mk [c]))
  | some _ => none

/-- Whole-payload transaction redaction, `server.ts` lines 35–38.  The loop
mutates the elements of `data.transactions` in place and the handler then
returns `data`; functionally this rebuilds the `transactions` field from the
mapped elements (the parse result holds no aliasing).  Payloads on which the
loop would raise a `TypeError` are returned as `.error`. -/
def redactTransactionsServer : JsonValue → Except String JsonValue
  | .obj fs =>
    match getF fs "transactions" with
    | some (.arr xs) =>
      match mapME redactTxnServer xs with
      | .error e => .error e
      | .ok ys => .ok (.obj (setF fs "transactions" (.arr ys)))
    | some (.bool _) => .error "TypeError: not iterable"
    | some (.num _) => .error "TypeError: not iterable"
    | some (.obj _) => .error "TypeError: not iterable"
    | _ => .ok (.obj fs)
  | v => .ok v

/-- Whole-payload transaction redaction, `part_000` lines 73–76 (the loop
body is total, but a non-iterable `transactions` value still raises). -/
def redactTransactionsPart0 : JsonValue → Except String JsonValue
  | .obj fs =>
    match getF fs "transactions" with
    | some (.arr xs) => .ok (.obj (setF fs "transactions" (.arr (xs.map redactTxnPart0))))
    | some (.bool _) => .error "TypeError: not iterable"
    | some (.num _) => .error "TypeError: not iterable"
    | some (.obj _) => .error "TypeError: not iterable"
    | _ => .ok (.obj fs)
  | v => .ok v

/-- A transaction element whose customer object (if any) carries neither an
`email` nor a `phone` field. -/
def elemClean : JsonValue → Bool
  | .obj fs =>
    match getF fs "customer" with
    | some (.obj cf) => (getF cf "email").isNone && (getF cf "phone").isNone
    | _ => true
  | _ => true

/-! ## Upstream calls (URL construction and response handling)

`server.ts` lines 29–32 and 53–56; `part_000` lines 44–47 and 68–71. -/

/-- Hexadecimal digit (uppercase), as produced by `encodeURIComponent`. -/
def hexDig (n : Nat) : Char :=
  if n < 10 then Char.ofNat (48 + n) else Char.ofNat (55 + n)

/-- UTF-8 bytes of a character (as `Nat`s below 256). -/
def utf8Bytes (c : Char) : List Nat :=
  let n := c.toNat
  if n < 128 then [n]
  else if n < 2048 then [192 + n / 64, 128 + n % 64]
  else if n < 65536 then [224 + n / 4096, 128 + (n / 64) % 64, 128 + n % 64]
  else [240 + n / 262144, 128 + (n / 4096) % 64, 128 + (n / 64) % 64, 128 + n % 64]

/-- Percent-encoding of one byte. -/
def pctByte (b : Nat) : String :=
  String.mk [Char.ofNat 37, hexDig (b / 16), hexDig (b % 16)]

/-- Characters `encodeURIComponent` leaves unescaped:
`A–Z a–z 0–9 - _ . ! ~ * ' ( )`. -/
def uriUnreserved (c : Char) : Bool :=
  let n := c.toNat
  (65 ≤ n && n ≤ 90) || (97 ≤ n && n ≤ 122) || (48 ≤ n && n ≤ 57) ||
    n == 45 || n == 95 || n == 46 || n == 33 || n == 126 || n == 42 ||
    n == 39 || n == 40 || n == 41

/-- JavaScript `encodeURIComponent`. -/
def encodeURIComponent (s : String) : String :=
  String.join (s.data.map fun c =>
    if uriUnreserved c then String.mk [c] else String.join ((utf8Bytes c).map pctByte))

/-- URL built by the `getCustomer` handler — identical in both files
(`server.ts` 53, `part_000` 44): the identifier is passed through
`encodeURIComponent`. -/
def getCustomerUrl (base cid : String) : String :=
  base ++ "/api/v2/customers/" ++ encodeURIComponent cid

/-- URL built by the `listTransactions` handler of `server.ts` line 29: the
raw identifier is interpolated without escaping. -/
def listTransactionsUrlServer (base cid : String) (limit : Int) : String :=
  base ++ "/api/v2/customers/" ++ cid ++ "/transactions?limit=" ++ toString limit

/-- URL built by the `listTransactions` handler of `part_000` line 68: the
identifier is passed through `encodeURIComponent`. -/
def listTransactionsUrlPart0 (base cid : String) (limit : Int) : String :=
  base ++ "/api/v2/customers/" ++ encodeURIComponent cid ++ "/transactions?limit=" ++ toString limit

/-- `fetch` `Response.ok`: status in the range 200–299. -/
def respOk (status : Nat) : Bool :=
  decide (200 ≤ status) && decide (status < 300)

/-- The body of both `getCustomer` handlers after the fetch resolves with
`status` and parsed body `body`: `if (!r.ok) throw new Error(...)`, then
redact and return.  The thrown error is modelled as `.error` carrying the
exact message built by the template literal. -/
def getCustomerHandler (status : Nat) (body : JsonValue) : Except String JsonValue :=
  if respOk status then .ok (redactCustomer body)
  else .error ("Punchh error " ++ toString status)

/-- The `listTransactions` handler of `server.ts` after the fetch resolves. -/
def listTransactionsHandlerServer (status : Nat) (body : JsonValue) : Except String JsonValue :=
  if respOk status then redactTransactionsServer body
  else .error ("Punchh error " ++ toString status)

/-- The `listTransactions` handler of `part_000` after the fetch resolves. -/
def listTransactionsHandlerPart0 (status : Nat) (body : JsonValue) : Except String JsonValue :=
  if respOk status then redactTransactionsPart0 body
  else .error ("Punchh error " ++ toString status)

/-! ## Session store and protocol dispatcher

`server.ts` lines 70–93 and `part_000` lines 83–106.  The store is the
`transports` record, keyed by session id; only membership of an id matters
to the dispatcher, so the store is modelled as the list of registered ids.
The `mcp-session-id` header is read as `string | undefined` and only ever
tested for JavaScript truthiness, so the code cannot distinguish an absent
header from an empty one; the envelope therefore carries `Option String`
with `none` standing for an absent (or empty, hence falsy) header. -/

/-- An inbound POST `/mcp` request as the dispatcher sees it: the optional
`mcp-session-id` header and whether `isInitializeRequest(req.body)` holds. -/
structure Envelope where
  sessionId : Option String
  isInit : Bool

/-- What the dispatcher does with a request. -/
inductive Outcome where
  | forwarded (sid : String)
  | initialized (sid : String)
  | badRequest
deriving DecidableEq

/-- `transports[sid]` truthiness: is `sid` registered? -/
def lookup (store : List String) (sid : String) : Bool :=
  store.contains sid

/-- The branch structure of both POST `/mcp` handlers (`server.ts` 76–90,
`part_000` 89–103), which is identical in the two files:
* a truthy header naming a registered transport forwards into it;
* no (truthy) header plus an initialize body builds a new transport whose
  `onsessioninitialized` callback registers the generated id `fresh`
  (`transports[sid] = transport`) — the id becomes visible in the store at
  that point and the response carries it;
* anything else answers HTTP 400 with the JSON-RPC error
  code -32000, message "Bad Request: No valid session", and leaves the
  store untouched.
`fresh` stands for the value produced by the transport's
`sessionIdGenerator` (`randomUUID`). -/
def dispatch (store : List String) (env : Envelope) (fresh : String) :
    Outcome × List String :=
  match env.sessionId with
  | some sid =>
    if lookup store sid then (.forwarded sid, store) else (.badRequest, store)
  | none =>
    if env.isInit then (.initialized fresh, fresh :: store) else (.badRequest, store)

/-- `server.ts` line 85: `transport.onclose = () => { if (transport.sessionId)
delete transports[transport.sessionId]; }` — on transport closure the id, if
the transport was ever initialized, is deleted from the store. -/
def closeServer (store : List String) : Option String → List String
  | some sid => store.filter fun s => !(s == sid)
  | none => store

/-- `part_000` registers no `onclose` handler on its transports, so a
transport closure runs no repository code and the store is unchanged. -/
def closePart0 (store : List String) : List String :=
  store

/-- Events driving the session store: an inbound POST (with the id the
generator would hand out if a session is created) or a transport signalling
closure (carrying its `sessionId`, `none` if it never completed the
handshake). -/
inductive Event where
  | post (env : Envelope) (fresh : String)
  | close (osid : Option String)

/-- One event against the `server.ts` store. -/
def stepServer (store : List String) : Event → List String
  | .post env fresh => (dispatch store env fresh).2
  | .close osid => closeServer store osid

/-- One event against the `part_000` store. -/
def stepPart0 (store : List String) : Event → List String
  | .post env fresh => (dispatch store env fresh).2
  | .close _ => closePart0 store

/-- Run of the `server.ts` store over a sequence of events. -/
def runServer (store : List String) : List Event → List String
  | [] => store
  | e :: es => runServer (stepServer store e) es

/-- Run of the `part_000` store over a sequence of events. -/
def runPart0 (store : List String) : List Event → List String
  | [] => store
  | e :: es => runPart0 (stepPart0 store e) es

/-- Ids issued by one event (the id returned by session creation, when the
event creates a session). -/
def issuedOf (store : List String) : Event → List String
  | .post env fresh =>
    match (dispatch store env fresh).1 with
    | .initialized sid => [sid]
    | _ => []
  | .close _ => []

/-- All ids issued by session creation along a run of the `server.ts`
store. -/
def issuedServer (store : List String) : List Event → List String
  | [] => []
  | e :: es => issuedOf store e ++ issuedServer (stepServer store e) es

/-- All ids issued by session creation along a run of the `part_000`
store. -/
def issuedPart0 (store : List String) : List Event → List String
  | [] => []
  | e :: es => issuedOf store e ++ issuedPart0 (stepPart0 store e) es

/-! ## Argument validation of the registered tools

The validation engine itself is the zod / MCP-SDK machinery, which is not
part of this repository; it is modelled from the spec (§4.1).  The two tool
schemas are transcribed from the source (`server.ts` 23–26 and 50,
`part_000` 41 and 62–65). -/

/-- A raw argument value. -/
inductive ArgValue where
  | str (s : String)
  | int (n : Int)
deriving DecidableEq

/-- Declared parameter types of the two schemas. -/
inductive ParamType where
  | string
  | int
deriving DecidableEq

/-- One declared parameter: name, type, optional inclusive bounds, optional
default. -/
structure ParamSpec where
  pname : String
  ptype : ParamType
  lo : Option Int
  hi : Option Int
  dflt : Option ArgValue

/-- Validation failures of the argument layer (spec §4.1 taxonomy). -/
inductive ValidationError where
  | missingArgument
  | invalidArgument
deriving DecidableEq

/-- Does a value satisfy a declared type? -/
def typeOk : ParamType → ArgValue → Bool
  | .string, .str _ => true
  | .int, .int _ => true
  | _, _ => false

/-- Does a value satisfy the declared bounds (`.min(1).max(100)`)? -/
def boundsOk (p : ParamSpec) : ArgValue → Bool
  | .int n =>
    (match p.lo with | some l => decide (l ≤ n) | none => true) &&
      (match p.hi with | some h => decide (n ≤ h) | none => true)
  | .str _ => true

/-- Modelled from the spec (§4.1): resolution of one declared parameter
against the raw arguments — a present value must satisfy its type and
bounds or the invocation fails with `InvalidArgument`; a missing value
takes the declared default or fails with `MissingArgument`. -/
def checkParam (raw : List (String × ArgValue)) (p : ParamSpec) :
    Except ValidationError (String × ArgValue) :=
  match getF raw p.pname with
  | some v =>
    if typeOk p.ptype v && boundsOk p v then .ok (p.pname, v)
    else .error .invalidArgument
  | none =>
    match p.dflt with
    | some d => .ok (p.pname, d)
    | none => .error .missingArgument

/-- Modelled from the spec (§4.1): every supplied argument must be a
declared parameter. -/
def knownKeys (schema : List ParamSpec) (raw : List (String × ArgValue)) : Bool :=
  raw.all fun kv => schema.any fun p => p.pname == kv.1

/-- Modelled from the spec (§4.1): validate the raw arguments against a
schema, producing the normalized arguments (declared order, defaults
filled in) or the first validation error. -/
def validateArgs (schema : List ParamSpec) (raw : List (String × ArgValue)) :
    Except ValidationError (List (String × ArgValue)) :=
  if knownKeys schema raw then mapME (checkParam raw) schema
  else .error .invalidArgument

/-- The `punchh.listTransactions` input schema (`server.ts` 23–26,
`part_000` 62–65): a required string `customer_id` and an integer `limit`
bounded to 1–100 with default 25. -/
def listTransactionsSchema : List ParamSpec :=
  [⟨"customer_id", .string, none, none, none⟩,
   ⟨"limit", .int, some 1, some 100, some (.int 25)⟩]

/-- The `punchh.getCustomer` input schema (`server.ts` 50, `part_000` 41):
a required string `customer_id`. -/
def getCustomerSchema : List ParamSpec :=
  [⟨"customer_id", .string, none, none, none⟩]

/-! ## Association-list lemmas -/

theorem getF_setF_self {α : Type} (fs : List (String × α)) (k : String) (v : α) :
    getF (setF fs k v) k = some v := by
  induction fs with
  | nil => simp [setF, getF]
  | cons kv rest ih =>
    obtain ⟨k2, w⟩ := kv
    by_cases h : k2 = k
    · simp [setF, getF, h]
    · simp [setF, getF, h, ih]

theorem getF_setF_ne {α : Type} (fs : List (String × α)) {k k2 : String} (v : α)
    (h : k ≠ k2) : getF (setF fs k v) k2 = getF fs k2 := by
  induction fs with
  | nil => simp [setF, getF, h]
  | cons kv rest ih =>
    obtain ⟨k3, w⟩ := kv
    by_cases h3 : k3 = k
    · subst h3
      simp [setF, getF, h]
    · simp only [setF, getF, if_neg h3]
      by_cases h32 : k3 = k2
      · simp [getF, h32]
      · simp [getF, h32, ih]

theorem setF_getF_eq {α : Type} (fs : List (String × α)) {k : String} {v : α}
    (h : getF fs k = some v) : setF fs k v = fs := by
  induction fs with
  | nil => simp [getF] at h
  | cons kv rest ih =>
    obtain ⟨k2, w⟩ := kv
    by_cases h2 : k2 = k
    · simp [getF, h2] at h
      simp [setF, h2, h]
    · simp [getF, h2] at h
      simp [setF, h2, ih h]

/-! ## Redaction lemmas -/

theorem getF_redactEmail_email (cf : List (String × JsonValue)) :
    getF (redactEmail cf) "email" =
      if truthyOpt (getF cf "email") then some emailMask else getF cf "email" := by
  unfold redactEmail
  by_cases h : truthyOpt (getF cf "email")
  · simp [h, getF_setF_self]
  · simp [h]

theorem getF_redactEmail_phone (cf : List (String × JsonValue)) :
    getF (redactEmail cf) "phone" = getF cf "phone" := by
  unfold redactEmail
  by_cases h : truthyOpt (getF cf "email")
  · rw [if_pos h]
    exact getF_setF_ne cf emailMask (by decide)
  · rw [if_neg h]

theorem getF_redactPhone_phone (cf : List (String × JsonValue)) :
    getF (redactPhone cf) "phone" =
      if truthyOpt (getF cf "phone") then some phoneMask else getF cf "phone" := by
  unfold redactPhone
  by_cases h : truthyOpt (getF cf "phone")
  · simp [h, getF_setF_self]
  · simp [h]

theorem getF_redactPhone_email (cf : List (String × JsonValue)) :
    getF (redactPhone cf) "email" = getF cf "email" := by
  unfold redactPhone
  by_cases h : truthyOpt (getF cf "phone")
  · rw [if_pos h]
    exact getF_setF_ne cf phoneMask (by decide)
  · rw [if_neg h]

theorem redactEmail_pos {cf : List (String × JsonValue)}
    (h : truthyOpt (getF cf "email") = true) :
    redactEmail cf = setF cf "email" emailMask := by
  unfold redactEmail
  rw [if_pos h]

theorem redactEmail_neg {cf : List (String × JsonValue)}
    (h : ¬truthyOpt (getF cf "email") = true) :
    redactEmail cf = cf := by
  unfold redactEmail
  rw [if_neg h]

theorem redactPhone_pos {cf : List (String × JsonValue)}
    (h : truthyOpt (getF cf "phone") = true) :
    redactPhone cf = setF cf "phone" phoneMask := by
  unfold redactPhone
  rw [if_pos h]

theorem redactPhone_neg {cf : List (String × JsonValue)}
    (h : ¬truthyOpt (getF cf "phone") = true) :
    redactPhone cf = cf := by
  unfold redactPhone
  rw [if_neg h]

theorem redactEmail_idem (cf : List (String × JsonValue)) :
    redactEmail (redactEmail cf) = redactEmail cf := by
  by_cases h : truthyOpt (getF cf "email")
  · have h1 : getF (redactEmail cf) "email" = some emailMask := by
      rw [getF_redactEmail_email, if_pos h]
    have h2 : truthyOpt (getF (redactEmail cf) "email") = true := by
      rw [h1]; decide
    rw [redactEmail_pos h2, setF_getF_eq _ h1]
  · rw [redactEmail_neg h, redactEmail_neg h]

theorem redactPhone_idem (cf : List (String × JsonValue)) :
    redactPhone (redactPhone cf) = redactPhone cf := by
  by_cases h : truthyOpt (getF cf "phone")
  · have h1 : getF (redactPhone cf) "phone" = some phoneMask := by
      rw [getF_redactPhone_phone, if_pos h]
    have h2 : truthyOpt (getF (redactPhone cf) "phone") = true := by
      rw [h1]; decide
    rw [redactPhone_pos h2, setF_getF_eq _ h1]
  · rw [redactPhone_neg h, redactPhone_neg h]

theorem redactEmail_redactPhone_redactEmail (cf : List (String × JsonValue)) :
    redactEmail (redactPhone (redactEmail cf)) = redactPhone (redactEmail cf) := by
  by_cases h : truthyOpt (getF cf "email")
  · have h1 : getF (redactPhone (redactEmail cf)) "email" = some emailMask := by
      rw [getF_redactPhone_email, getF_redactEmail_email, if_pos h]
    have h2 : truthyOpt (getF (redactPhone (redactEmail cf)) "email") = true := by
      rw [h1]; decide
    rw [redactEmail_pos h2, setF_getF_eq _ h1]
  · have h1 : getF (redactPhone (redactEmail cf)) "email" = getF cf "email" := by
      rw [getF_redactPhone_email, getF_redactEmail_email, if_neg h]
    have h2 : ¬truthyOpt (getF (redactPhone (redactEmail cf)) "email") = true := by
      rw [h1]; exact h
    rw [redactEmail_neg h2]

theorem redactCustomerObj_idem (cf : List (String × JsonValue)) :
    redactCustomerObj (redactCustomerObj cf) = redactCustomerObj cf := by
  unfold redactCustomerObj
  rw [redactEmail_redactPhone_redactEmail, redactPhone_idem]

theorem redactCustomerObj_of_absent {cf : List (String × JsonValue)}
    (he : getF cf "email" = none) (hp : getF cf "phone" = none) :
    redactCustomerObj cf = cf := by
  unfold redactCustomerObj redactEmail redactPhone
  rw [he]
  simp [truthyOpt, hp]

theorem redactTxnFields_obj {fs cf : List (String × JsonValue)}
    (hc : getF fs "customer" = some (.obj cf)) :
    redactTxnFields fs = setF fs "customer" (.obj (redactCustomerObj cf)) := by
  unfold redactTxnFields
  rw [hc]

theorem redactTxnFields_none {fs : List (String × JsonValue)}
    (hc : getF fs "customer" = none) : redactTxnFields fs = fs := by
  unfold redactTxnFields
  rw [hc]

theorem redactTxnFields_idem (fs : List (String × JsonValue)) :
    redactTxnFields (redactTxnFields fs) = redactTxnFields fs := by
  cases hc : getF fs "customer" with
  | none => rw [redactTxnFields_none hc, redactTxnFields_none hc]
  | some v =>
    cases v with
    | obj cf =>
      have h1 := redactTxnFields_obj hc
      have h2 : getF (setF fs "customer" (JsonValue.obj (redactCustomerObj cf))) "customer"
          = some (JsonValue.obj (redactCustomerObj cf)) := getF_setF_self fs _ _
      rw [h1, redactTxnFields_obj h2, redactCustomerObj_idem, setF_getF_eq _ h2]
    | null =>
      have h1 : redactTxnFields fs = fs := by unfold redactTxnFields; rw [hc]
      rw [h1, h1]
    | bool b =>
      have h1 : redactTxnFields fs = fs := by unfold redactTxnFields; rw [hc]
      rw [h1, h1]
    | num n =>
      have h1 : redactTxnFields fs = fs := by unfold redactTxnFields; rw [hc]
      rw [h1, h1]
    | str s =>
      have h1 : redactTxnFields fs = fs := by unfold redactTxnFields; rw [hc]
      rw [h1, h1]
    | arr xs =>
      have h1 : redactTxnFields fs = fs := by unfold redactTxnFields; rw [hc]
      rw [h1, h1]

theorem redactTxnServer_fix {x y : JsonValue} (h : redactTxnServer x = .ok y) :
    redactTxnServer y = .ok y := by
  cases x with
  | null => simp [redactTxnServer] at h
  | obj fs =>
    simp [redactTxnServer] at h
    subst h
    simp [redactTxnServer, redactTxnFields_idem]
  | bool b => simp [redactTxnServer] at h; subst h; rfl
  | num n => simp [redactTxnServer] at h; subst h; rfl
  | str s => simp [redactTxnServer] at h; subst h; rfl
  | arr xs => simp [redactTxnServer] at h; subst h; rfl

theorem redactTxnPart0_idem (t : JsonValue) :
    redactTxnPart0 (redactTxnPart0 t) = redactTxnPart0 t := by
  cases t <;> simp [redactTxnPart0, redactTxnFields_idem]

theorem mapME_fix {α ε : Type} {f : α → Except ε α}
    (hf : ∀ x y, f x = .ok y → f y = .ok y) :
    ∀ {xs ys : List α}, mapME f xs = .ok ys → mapME f ys = .ok ys := by
  intro xs
  induction xs with
  | nil =>
    intro ys h
    simp [mapME] at h
    subst h
    rfl
  | cons x xs ih =>
    intro ys h
    unfold mapME at h
    cases hfx : f x with
    | error e => rw [hfx] at h; simp at h
    | ok y =>
      rw [hfx] at h
      cases hm : mapME f xs with
      | error e => rw [hm] at h; simp at h
      | ok zs =>
        rw [hm] at h
        simp at h
        subst h
        unfold mapME
        rw [hf x y hfx, ih hm]

theorem redactTxnFields_of_clean {fs cf : List (String × JsonValue)}
    (hc : getF fs "customer" = some (.obj cf))
    (he : getF cf "email" = none) (hp : getF cf "phone" = none) :
    redactTxnFields fs = fs := by
  rw [redactTxnFields_obj hc, redactCustomerObj_of_absent he hp, setF_getF_eq _ hc]

theorem redactTxnPart0_of_clean {t : JsonValue} (h : elemClean t = true) :
    redactTxnPart0 t = t := by
  cases t with
  | obj fs =>
    simp only [elemClean] at h
    simp only [redactTxnPart0]
    cases hc : getF fs "customer" with
    | none => rw [redactTxnFields_none hc]
    | some v =>
      rw [hc] at h
      cases v with
      | obj cf =>
        simp only [Bool.and_eq_true, Option.isNone_iff_eq_none] at h
        rw [redactTxnFields_of_clean hc h.1 h.2]
      | null =>
        have h1 : redactTxnFields fs = fs := by unfold redactTxnFields; rw [hc]
        rw [h1]
      | bool b =>
        have h1 : redactTxnFields fs = fs := by unfold redactTxnFields; rw [hc]
        rw [h1]
      | num n =>
        have h1 : redactTxnFields fs = fs := by unfold redactTxnFields; rw [hc]
        rw [h1]
      | str s =>
        have h1 : redactTxnFields fs = fs := by unfold redactTxnFields; rw [hc]
        rw [h1]
      | arr xs =>
        have h1 : redactTxnFields fs = fs := by unfold redactTxnFields; rw [hc]
        rw [h1]
  | null => rfl
  | bool b => rfl
  | num n => rfl
  | str s => rfl
  | arr xs => rfl

theorem map_redactTxnPart0_of_clean {xs : List JsonValue}
    (h : ∀ t ∈ xs, elemClean t = true) : xs.map redactTxnPart0 = xs := by
  induction xs with
  | nil => rfl
  | cons x xs ih =>
    simp only [List.map_cons]
    rw [redactTxnPart0_of_clean (h x (List.mem_cons_self x xs)),
      ih fun t ht => h t (List.mem_cons_of_mem x ht)]

theorem redactTransactionsServer_arr {fs : List (String × JsonValue)} {xs : List JsonValue}
    (h : getF fs "transactions" = some (.arr xs)) :
    redactTransactionsServer (.obj fs) =
      match mapME redactTxnServer xs with
      | .error e => .error e
      | .ok ys => .ok (.obj (setF fs "transactions" (.arr ys))) := by
  simp only [redactTransactionsServer]
  rw [h]

theorem redactTransactionsServer_none {fs : List (String × JsonValue)}
    (h : getF fs "transactions" = none) :
    redactTransactionsServer (.obj fs) = .ok (.obj fs) := by
  simp only [redactTransactionsServer]
  rw [h]

theorem redactTransactionsServer_null {fs : List (String × JsonValue)}
    (h : getF fs "transactions" = some .null) :
    redactTransactionsServer (.obj fs) = .ok (.obj fs) := by
  simp only [redactTransactionsServer]
  rw [h]

theorem redactTransactionsServer_str {fs : List (String × JsonValue)} {s : String}
    (h : getF fs "transactions" = some (.str s)) :
    redactTransactionsServer (.obj fs) = .ok (.obj fs) := by
  simp only [redactTransactionsServer]
  rw [h]

theorem redactTransactionsPart0_arr {fs : List (String × JsonValue)} {xs : List JsonValue}
    (h : getF fs "transactions" = some (.arr xs)) :
    redactTransactionsPart0 (.obj fs)
      = .ok (.obj (setF fs "transactions" (.arr (xs.map redactTxnPart0)))) := by
  simp only [redactTransactionsPart0]
  rw [h]

theorem redactTransactionsPart0_none {fs : List (String × JsonValue)}
    (h : getF fs "transactions" = none) :
    redactTransactionsPart0 (.obj fs) = .ok (.obj fs) := by
  simp only [redactTransactionsPart0]
  rw [h]

theorem redactTransactionsPart0_null {fs : List (String × JsonValue)}
    (h : getF fs "transactions" = some .null) :
    redactTransactionsPart0 (.obj fs) = .ok (.obj fs) := by
  simp only [redactTransactionsPart0]
  rw [h]

theorem redactTransactionsPart0_str {fs : List (String × JsonValue)} {s : String}
    (h : getF fs "transactions" = some (.str s)) :
    redactTransactionsPart0 (.obj fs) = .ok (.obj fs) := by
  simp only [redactTransactionsPart0]
  rw [h]

theorem map_redactTxnPart0_idem (xs : List JsonValue) :
    (xs.map redactTxnPart0).map redactTxnPart0 = xs.map redactTxnPart0 := by
  rw [List.map_map]
  exact List.map_congr_left fun a _ => redactTxnPart0_idem a

/-- Reapplying the `server.ts` transaction redaction to a payload it
successfully redacted succeeds and is a no-op. -/
theorem redactTransactionsServer_kleisli {p q : JsonValue}
    (h : redactTransactionsServer p = .ok q) :
    redactTransactionsServer q = .ok q := by
  cases p with
  | obj fs =>
    cases hg : getF fs "transactions" with
    | none =>
      rw [redactTransactionsServer_none hg] at h
      simp at h
      subst h
      exact redactTransactionsServer_none hg
    | some v =>
      cases v with
      | arr xs =>
        rw [redactTransactionsServer_arr hg] at h
        cases hm : mapME redactTxnServer xs with
        | error e => rw [hm] at h; simp at h
        | ok ys =>
          rw [hm] at h
          simp at h
          subst h
          have hg2 : getF (setF fs "transactions" (.arr ys)) "transactions" = some (.arr ys) :=
            getF_setF_self fs "transactions" _
          rw [redactTransactionsServer_arr hg2,
            mapME_fix (fun x y hx => redactTxnServer_fix hx) hm]
          show Except.ok (JsonValue.obj
              (setF (setF fs "transactions" (JsonValue.arr ys)) "transactions" (JsonValue.arr ys)))
            = Except.ok (JsonValue.obj (setF fs "transactions" (JsonValue.arr ys)))
          rw [setF_getF_eq _ hg2]
      | null =>
        rw [redactTransactionsServer_null hg] at h
        simp at h
        subst h
        exact redactTransactionsServer_null hg
      | str s =>
        rw [redactTransactionsServer_str hg] at h
        simp at h
        subst h
        exact redactTransactionsServer_str hg
      | bool b =>
        simp only [redactTransactionsServer] at h
        rw [hg] at h
        simp at h
      | num n =>
        simp only [redactTransactionsServer] at h
        rw [hg] at h
        simp at h
      | obj g =>
        simp only [redactTransactionsServer] at h
        rw [hg] at h
        simp at h
  | null =>
    have h2 : (Except.ok JsonValue.null : Except String JsonValue) = .ok q := h
    simp at h2
    subst h2
    rfl
  | bool b =>
    have h2 : (Except.ok (JsonValue.bool b) : Except String JsonValue) = .ok q := h
    simp at h2
    subst h2
    rfl
  | num n =>
    have h2 : (Except.ok (JsonValue.num n) : Except String JsonValue) = .ok q := h
    simp at h2
    subst h2
    rfl
  | str s =>
    have h2 : (Except.ok (JsonValue.str s) : Except String JsonValue) = .ok q := h
    simp at h2
    subst h2
    rfl
  | arr xs =>
    have h2 : (Except.ok (JsonValue.arr xs) : Except String JsonValue) = .ok q := h
    simp at h2
    subst h2
    rfl

/-- Reapplying the `part_000` transaction redaction to a payload it
successfully redacted succeeds and is a no-op. -/
theorem redactTransactionsPart0_kleisli {p q : JsonValue}
    (h : redactTransactionsPart0 p = .ok q) :
    redactTransactionsPart0 q = .ok q := by
  cases p with
  | obj fs =>
    cases hg : getF fs "transactions" with
    | none =>
      rw [redactTransactionsPart0_none hg] at h
      simp at h
      subst h
      exact redactTransactionsPart0_none hg
    | some v =>
      cases v with
      | arr xs =>
        rw [redactTransactionsPart0_arr hg] at h
        simp at h
        subst h
        have hg2 : getF (setF fs "transactions" (.arr (xs.map redactTxnPart0))) "transactions"
            = some (.arr (xs.map redactTxnPart0)) := getF_setF_self fs "transactions" _
        rw [redactTransactionsPart0_arr hg2, map_redactTxnPart0_idem, setF_getF_eq _ hg2]
      | null =>
        rw [redactTransactionsPart0_null hg] at h
        simp at h
        subst h
        exact redactTransactionsPart0_null hg
      | str s =>
        rw [redactTransactionsPart0_str hg] at h
        simp at h
        subst h
        exact redactTransactionsPart0_str hg
      | bool b =>
        simp only [redactTransactionsPart0] at h
        rw [hg] at h
        simp at h
      | num n =>
        simp only [redactTransactionsPart0] at h
        rw [hg] at h
        simp at h
      | obj g =>
        simp only [redactTransactionsPart0] at h
        rw [hg] at h
        simp at h
  | null =>
    have h2 : (Except.ok JsonValue.null : Except String JsonValue) = .ok q := h
    simp at h2
    subst h2
    rfl
  | bool b =>
    have h2 : (Except.ok (JsonValue.bool b) : Except String JsonValue) = .ok q := h
    simp at h2
    subst h2
    rfl
  | num n =>
    have h2 : (Except.ok (JsonValue.num n) : Except String JsonValue) = .ok q := h
    simp at h2
    subst h2
    rfl
  | str s =>
    have h2 : (Except.ok (JsonValue.str s) : Except String JsonValue) = .ok q := h
    simp at h2
    subst h2
    rfl
  | arr xs =>
    have h2 : (Except.ok (JsonValue.arr xs) : Except String JsonValue) = .ok q := h
    simp at h2
    subst h2
    rfl

/-! ## Session-store lemmas -/

theorem lookup_iff (store : List String) (sid : String) :
    lookup store sid = true ↔ sid ∈ store :=
  List.elem_iff

theorem lookup_eq_false {store : List String} {sid : String} (h : sid ∉ store) :
    lookup store sid = false := by
  cases hl : lookup store sid with
  | false => rfl
  | true => exact absurd ((lookup_iff store sid).1 hl) h

theorem lookup_closeServer_self (store : List String) (sid : String) :
    lookup (closeServer store (some sid)) sid = false := by
  apply lookup_eq_false
  intro hmem
  have := (List.mem_filter.1 hmem).2
  simp at this

theorem mem_stepServer {x : String} (store : List String) (e : Event)
    (h : x ∈ stepServer store e) : x ∈ store ∨ x ∈ issuedOf store e := by
  cases e with
  | post env fresh =>
    obtain ⟨osid, ini⟩ := env
    cases osid with
    | some sid =>
      by_cases hl : lookup store sid
      · simp only [stepServer, dispatch, hl, if_true] at h
        exact Or.inl h
      · simp only [stepServer, dispatch, hl, if_false] at h
        exact Or.inl h
    | none =>
      cases ini with
      | true =>
        simp only [stepServer, dispatch, if_true] at h
        rcases List.mem_cons.1 h with h | h
        · subst h
          right
          simp [issuedOf, dispatch]
        · exact Or.inl h
      | false =>
        simp only [stepServer, dispatch, if_false] at h
        exact Or.inl h
  | close osid =>
    cases osid with
    | some sid =>
      exact Or.inl (List.mem_of_mem_filter h)
    | none => exact Or.inl h

theorem mem_stepPart0 {x : String} (store : List String) (e : Event)
    (h : x ∈ stepPart0 store e) : x ∈ store ∨ x ∈ issuedOf store e := by
  cases e with
  | post env fresh => exact mem_stepServer store (.post env fresh) h
  | close osid => exact Or.inl h

theorem mem_runServer {x : String} :
    ∀ (es : List Event) (store : List String),
      x ∈ runServer store es → x ∈ store ∨ x ∈ issuedServer store es := by
  intro es
  induction es with
  | nil => exact fun store h => Or.inl h
  | cons e es ih =>
    intro store h
    have h2 := ih (stepServer store e) h
    rcases h2 with h2 | h2
    · rcases mem_stepServer store e h2 with h3 | h3
      · exact Or.inl h3
      · right
        exact List.mem_append.2 (Or.inl h3)
    · right
      exact List.mem_append.2 (Or.inr h2)

theorem mem_runPart0 {x : String} :
    ∀ (es : List Event) (store : List String),
      x ∈ runPart0 store es → x ∈ store ∨ x ∈ issuedPart0 store es := by
  intro es
  induction es with
  | nil => exact fun store h => Or.inl h
  | cons e es ih =>
    intro store h
    have h2 := ih (stepPart0 store e) h
    rcases h2 with h2 | h2
    · rcases mem_stepPart0 store e h2 with h3 | h3
      · exact Or.inl h3
      · right
        exact List.mem_append.2 (Or.inl h3)
    · right
      exact List.mem_append.2 (Or.inr h2)

theorem not_mem_runServer_of_not_issued {x : String} {es : List Event}
    (h : x ∉ issuedServer [] es) : x ∉ runServer [] es := by
  intro hmem
  rcases mem_runServer es [] hmem with h2 | h2
  · simp at h2
  · exact h h2

theorem not_mem_runPart0_of_not_issued {x : String} {es : List Event}
    (h : x ∉ issuedPart0 [] es) : x ∉ runPart0 [] es := by
  intro hmem
  rcases mem_runPart0 es [] hmem with h2 | h2
  · simp at h2
  · exact h h2

/-! ## Claim theorems -/

/-- C1: for every identifier never returned by session creation along any
run of the server (either variant, started from the empty `transports`
record), presenting that identifier in the `mcp-session-id` header finds no
session — `lookup` answers false — and the POST is answered with the
HTTP 400 "Bad Request: No valid session" protocol error (no crash: the
dispatcher is a total function), leaving the store unchanged. -/
theorem c1_unknown_session_rejected :
    (∀ (es : List Event) (id : String), id ∉ issuedServer [] es →
      lookup (runServer [] es) id = false ∧
      ∀ (b : Bool) (fresh : String),
        dispatch (runServer [] es) ⟨some id, b⟩ fresh = (.badRequest, runServer [] es)) ∧
    (∀ (es : List Event) (id : String), id ∉ issuedPart0 [] es →
      lookup (runPart0 [] es) id = false ∧
      ∀ (b : Bool) (fresh : String),
        dispatch (runPart0 [] es) ⟨some id, b⟩ fresh = (.badRequest, runPart0 [] es)) := by
  constructor
  · intro es id h
    have hl : lookup (runServer [] es) id = false :=
      lookup_eq_false (not_mem_runServer_of_not_issued h)
    exact ⟨hl, fun b fresh => by simp [dispatch, hl]⟩
  · intro es id h
    have hl : lookup (runPart0 [] es) id = false :=
      lookup_eq_false (not_mem_runPart0_of_not_issued h)
    exact ⟨hl, fun b fresh => by simp [dispatch, hl]⟩

/-- Witness for C1: after one session "s1" is created, the foreign id "zzz"
is not found and is answered with the 400 protocol error. -/
theorem c1_unknown_session_rejected_witness :
    lookup (runServer [] [.post ⟨none, true⟩ "s1"]) "zzz" = false ∧
    dispatch (runServer [] [.post ⟨none, true⟩ "s1"]) ⟨some "zzz", true⟩ "f2"
      = (.badRequest, runServer [] [.post ⟨none, true⟩ "s1"]) := by
  have h := c1_unknown_session_rejected.1 [.post ⟨none, true⟩ "s1"] "zzz" (by decide)
  exact ⟨h.1, h.2 true "f2"⟩

/-- C2: on a valid initiation envelope (no session header, initialize body),
the dispatcher creates a session under the generated identifier; provided
the generator returns an identifier not previously issued (spec §4.4:
`randomUUID`, collision-free), that identifier was not visible to `lookup`
before the registration and is visible immediately afterwards — registration
(`transports[sid] = transport` inside `onsessioninitialized`) is the single
atomic point at which the session becomes visible. -/
theorem c2_create_session_fresh_and_visible :
    (∀ (es : List Event) (fresh : String), fresh ∉ issuedServer [] es →
      lookup (runServer [] es) fresh = false ∧
      dispatch (runServer [] es) ⟨none, true⟩ fresh
        = (.initialized fresh, fresh :: runServer [] es) ∧
      lookup (fresh :: runServer [] es) fresh = true) ∧
    (∀ (es : List Event) (fresh : String), fresh ∉ issuedPart0 [] es →
      lookup (runPart0 [] es) fresh = false ∧
      dispatch (runPart0 [] es) ⟨none, true⟩ fresh
        = (.initialized fresh, fresh :: runPart0 [] es) ∧
      lookup (fresh :: runPart0 [] es) fresh = true) := by
  constructor
  · intro es fresh h
    refine ⟨lookup_eq_false (not_mem_runServer_of_not_issued h), by simp [dispatch], ?_⟩
    exact (lookup_iff _ _).2 (List.mem_cons_self _ _)
  · intro es fresh h
    refine ⟨lookup_eq_false (not_mem_runPart0_of_not_issued h), by simp [dispatch], ?_⟩
    exact (lookup_iff _ _).2 (List.mem_cons_self _ _)

/-- Witness for C2: a second creation with the fresh id "s2" after "s1" was
issued. -/
theorem c2_create_session_fresh_and_visible_witness :
    lookup (runServer [] [.post ⟨none, true⟩ "s1"]) "s2" = false ∧
    dispatch (runServer [] [.post ⟨none, true⟩ "s1"]) ⟨none, true⟩ "s2"
      = (.initialized "s2", "s2" :: runServer [] [.post ⟨none, true⟩ "s1"]) ∧
    lookup ("s2" :: runServer [] [.post ⟨none, true⟩ "s1"]) "s2" = true :=
  c2_create_session_fresh_and_visible.1 [.post ⟨none, true⟩ "s1"] "s2" (by decide)

/-- C3: an envelope with no (truthy) session header whose body is not an
initialize request falls into the final `else` of both POST handlers: the
400 "Bad Request: No valid session" protocol error is returned and the
session store is returned exactly as it was — no session is created.  The
dispatcher `dispatch` is shared by both source files, so this covers both. -/
theorem c3_invalid_session_request (store : List String) (fresh : String) :
    dispatch store ⟨none, false⟩ fresh = (.badRequest, store) := by
  simp [dispatch]

/-- Counterexample to C4 as stated: in the `part_000` variant no `onclose`
handler is installed, so after the only session "s1" is created and its
transport signals closure, the identifier is still in the store and lookup
still succeeds — the claim demands that the lookup return not-found. -/
theorem c4_part0_close_keeps_session :
    runPart0 [] [.post ⟨none, true⟩ "s1", .close (some "s1")] = ["s1"] ∧
    lookup (runPart0 [] [.post ⟨none, true⟩ "s1", .close (some "s1")]) "s1" = true := by
  constructor <;> rfl

/-- C4 (amended): in `server.ts`, whose dispatcher installs
`transport.onclose`, transport closure removes the session identifier from
the store and a subsequent lookup of that identifier returns not-found; the
`part_000` variant installs no close handler, so transport closure leaves
its store unchanged. -/
theorem c4_close_removes_session :
    (∀ (store : List String) (sid : String),
      stepServer store (.close (some sid)) = closeServer store (some sid) ∧
      lookup (closeServer store (some sid)) sid = false) ∧
    (∀ store : List String, closePart0 store = store) :=
  ⟨fun store sid => ⟨rfl, lookup_closeServer_self store sid⟩, fun _ => rfl⟩

/-- Counterexample to C5 as stated: a customer record whose `email` field
holds the empty string is passed through redaction unchanged — the guard
`if (data?.email)` tests JavaScript truthiness and the empty string is
falsy — so the email field is not replaced by the placeholder. -/
theorem c5_empty_email_not_replaced :
    redactCustomer (.obj [("email", .str "")]) = .obj [("email", .str "")] ∧
    getF [("email", JsonValue.str "")] "email" = some (.str "") ∧
    JsonValue.str "" ≠ emailMask := by
  refine ⟨rfl, rfl, ?_⟩
  intro h
  simp [emailMask] at h

/-- C5 (amended): a customer record's email field holding a truthy value is
replaced by the fixed placeholder and a truthy phone field by the
fixed-length mask, while an email or phone field holding a falsy value
(empty string, `null`, `0`, `false`) is left unchanged; and the replacement
is applied through the same per-customer masking (`redactCustomerObj`) both
when the customer record is the top-level payload and when it sits in the
`customer` field of an object element of the transactions list (in both
source variants). -/
theorem c5_truthy_fields_masked_uniformly :
    (∀ (cf : List (String × JsonValue)) (v : JsonValue),
      getF cf "email" = some v → truthy v = true →
      getF (redactCustomerObj cf) "email" = some emailMask) ∧
    (∀ (cf : List (String × JsonValue)) (v : JsonValue),
      getF cf "phone" = some v → truthy v = true →
      getF (redactCustomerObj cf) "phone" = some phoneMask) ∧
    (∀ (cf : List (String × JsonValue)) (v : JsonValue),
      getF cf "email" = some v → truthy v = false →
      getF (redactCustomerObj cf) "email" = some v) ∧
    (∀ (cf : List (String × JsonValue)) (v : JsonValue),
      getF cf "phone" = some v → truthy v = false →
      getF (redactCustomerObj cf) "phone" = some v) ∧
    (∀ cf : List (String × JsonValue),
      redactCustomer (.obj cf) = .obj (redactCustomerObj cf)) ∧
    (∀ fs cf : List (String × JsonValue), getF fs "customer" = some (.obj cf) →
      redactTxnServer (.obj fs) = .ok (.obj (setF fs "customer" (.obj (redactCustomerObj cf)))) ∧
      redactTxnPart0 (.obj fs) = .obj (setF fs "customer" (.obj (redactCustomerObj cf)))) := by
  refine ⟨?_, ?_, ?_, ?_, fun cf => rfl, ?_⟩
  · intro cf v hv ht
    have he : truthyOpt (getF cf "email") = true := by rw [hv]; exact ht
    unfold redactCustomerObj
    rw [getF_redactPhone_email, getF_redactEmail_email, if_pos he]
  · intro cf v hv ht
    have hp : truthyOpt (getF (redactEmail cf) "phone") = true := by
      rw [getF_redactEmail_phone, hv]; exact ht
    unfold redactCustomerObj
    rw [getF_redactPhone_phone, if_pos hp]
  · intro cf v hv ht
    have he : ¬truthyOpt (getF cf "email") = true := by
      rw [hv]
      show ¬truthy v = true
      simp [ht]
    unfold redactCustomerObj
    rw [getF_redactPhone_email, redactEmail_neg he, hv]
  · intro cf v hv ht
    have hp : getF (redactEmail cf) "phone" = some v := by
      rw [getF_redactEmail_phone, hv]
    have hnp : ¬truthyOpt (getF (redactEmail cf) "phone") = true := by
      rw [hp]
      show ¬truthy v = true
      simp [ht]
    unfold redactCustomerObj
    rw [getF_redactPhone_phone, if_neg hnp, hp]
  · intro fs cf hc
    refine ⟨?_, ?_⟩
    · show Except.ok (JsonValue.obj (redactTxnFields fs)) = _
      rw [redactTxnFields_obj hc]
    · show JsonValue.obj (redactTxnFields fs) = _
      rw [redactTxnFields_obj hc]

/-- Witness for C5 (amended) at a concrete customer record with truthy email
and phone (both top-level and nested) and at one with a falsy (empty-string)
email and a falsy (`0`) phone, which are left unchanged. -/
theorem c5_truthy_fields_masked_uniformly_witness :
    getF (redactCustomerObj [("email", .str "x@y"), ("phone", .str "123")]) "email"
      = some emailMask ∧
    getF (redactCustomerObj [("email", .str "x@y"), ("phone", .str "123")]) "phone"
      = some phoneMask ∧
    getF (redactCustomerObj [("email", .str ""), ("phone", .num 0)]) "email"
      = some (.str "") ∧
    getF (redactCustomerObj [("email", .str ""), ("phone", .num 0)]) "phone"
      = some (.num 0) ∧
    redactCustomer (.obj [("email", .str "x@y"), ("phone", .str "123")])
      = .obj (redactCustomerObj [("email", .str "x@y"), ("phone", .str "123")]) ∧
    redactTxnServer (.obj [("customer", .obj [("email", .str "x@y"), ("phone", .str "123")])])
      = .ok (.obj (setF [("customer", .obj [("email", .str "x@y"), ("phone", .str "123")])]
          "customer"
          (.obj (redactCustomerObj [("email", .str "x@y"), ("phone", .str "123")])))) := by
  refine ⟨?_, ?_, ?_, ?_, ?_, ?_⟩
  · exact c5_truthy_fields_masked_uniformly.1 _ _ rfl (by decide)
  · exact c5_truthy_fields_masked_uniformly.2.1 _ _ rfl (by decide)
  · exact c5_truthy_fields_masked_uniformly.2.2.1 _ _ rfl (by decide)
  · exact c5_truthy_fields_masked_uniformly.2.2.2.1 _ _ rfl (by decide)
  · exact c5_truthy_fields_masked_uniformly.2.2.2.2.1 _
  · exact (c5_truthy_fields_masked_uniformly.2.2.2.2.2
      [("customer", .obj [("email", .str "x@y"), ("phone", .str "123")])]
      [("email", .str "x@y"), ("phone", .str "123")] rfl).1

/-- C6: redaction is idempotent — the top-level customer redaction
outright, the two transaction redactions in the Kleisli sense (reapplying
to a successfully redacted payload returns it unchanged) — and on payloads
carrying no email or phone field it acts as the identity (top-level, and
over the transactions list for the `part_000` filter); the final conjunct
exhibits the failure of the identity half in `server.ts`: a payload with no
email or phone field anywhere whose transactions list holds a `null`
element makes the `server.ts` filter raise a `TypeError` instead of
returning the payload unchanged. -/
theorem c6_redaction_idempotent_and_noop :
    (∀ p, redactCustomer (redactCustomer p) = redactCustomer p) ∧
    (∀ p q, redactTransactionsServer p = .ok q → redactTransactionsServer q = .ok q) ∧
    (∀ p q, redactTransactionsPart0 p = .ok q → redactTransactionsPart0 q = .ok q) ∧
    (∀ fs : List (String × JsonValue), getF fs "email" = none → getF fs "phone" = none →
      redactCustomer (.obj fs) = .obj fs) ∧
    (∀ (fs : List (String × JsonValue)) (xs : List JsonValue),
      getF fs "transactions" = some (.arr xs) → (∀ t ∈ xs, elemClean t = true) →
      redactTransactionsPart0 (.obj fs) = .ok (.obj fs)) ∧
    redactTransactionsServer (.obj [("transactions", .arr [.null])])
      = .error "TypeError: cannot read properties of null" := by
  refine ⟨?_, fun p q h => redactTransactionsServer_kleisli h,
    fun p q h => redactTransactionsPart0_kleisli h, ?_, ?_, rfl⟩
  · intro p
    cases p with
    | obj fs =>
      show JsonValue.obj (redactCustomerObj (redactCustomerObj fs)) = _
      rw [redactCustomerObj_idem]
      rfl
    | null => rfl
    | bool b => rfl
    | num n => rfl
    | str s => rfl
    | arr xs => rfl
  · intro fs he hp
    show JsonValue.obj (redactCustomerObj fs) = JsonValue.obj fs
    rw [redactCustomerObj_of_absent he hp]
  · intro fs xs hg hclean
    rw [redactTransactionsPart0_arr hg, map_redactTxnPart0_of_clean hclean,
      setF_getF_eq _ hg]

/-- Witness for C6 at concrete payloads (idempotence instances at a
transactions payload the server filter accepts, identity instances at a
field-free customer and at a clean transactions list with a null element,
which the `part_000` filter leaves unchanged). -/
theorem c6_redaction_idempotent_and_noop_witness :
    redactCustomer (redactCustomer (.obj [("email", .str "x@y")]))
      = redactCustomer (.obj [("email", .str "x@y")]) ∧
    redactTransactionsServer
        (.obj [("transactions", .arr [.obj [("customer", .obj [("email", .str "x@y")])]])])
      = .ok (.obj [("transactions",
          .arr [.obj [("customer", .obj [("email", emailMask)])]])]) ∧
    redactTransactionsServer
        (.obj [("transactions", .arr [.obj [("customer", .obj [("email", emailMask)])]])])
      = .ok (.obj [("transactions", .arr [.obj [("customer", .obj [("email", emailMask)])]])]) ∧
    redactTransactionsPart0 (.obj [("transactions", .arr [.null])])
      = .ok (.obj [("transactions", .arr [.null])]) ∧
    redactCustomer (.obj [("name", .str "n")]) = .obj [("name", .str "n")] := by
  refine ⟨c6_redaction_idempotent_and_noop.1 _, rfl, ?_, ?_, ?_⟩
  · exact c6_redaction_idempotent_and_noop.2.1
      (.obj [("transactions", .arr [.obj [("customer", .obj [("email", .str "x@y")])]])])
      (.obj [("transactions", .arr [.obj [("customer", .obj [("email", emailMask)])]])]) rfl
  · exact c6_redaction_idempotent_and_noop.2.2.2.2.1
      [("transactions", .arr [.null])] [.null] rfl (by decide)
  · exact c6_redaction_idempotent_and_noop.2.2.2.1 [("name", .str "n")] rfl rfl

/-- C7: the redaction filters are not total.  The `server.ts` transaction
loop reads `t.customer` without guarding `t`, so a `null` element of the
transactions list raises a `TypeError` (the `part_000` loop, written
`t?.customer?.email`, handles the same payload); and in both files a
non-iterable `transactions` value (e.g. the number 5) makes the
`for...of` loop itself raise. -/
theorem c7_redaction_raises :
    redactTransactionsServer (.obj [("transactions", .arr [.null])])
      = .error "TypeError: cannot read properties of null" ∧
    redactTransactionsPart0 (.obj [("transactions", .arr [.null])])
      = .ok (.obj [("transactions", .arr [.null])]) ∧
    redactTransactionsServer (.obj [("transactions", .num 5)])
      = .error "TypeError: not iterable" ∧
    redactTransactionsPart0 (.obj [("transactions", .num 5)])
      = .error "TypeError: not iterable" :=
  ⟨rfl, rfl, rfl, rfl⟩

/-- C8: against the declared `punchh.listTransactions` schema, a call with
`customer_id` a string and `limit` an integer within the declared 1–100
bound validates and the normalized arguments are passed through; omitting
the required `customer_id` (which has no default) fails with
`MissingArgument`; omitting `limit` fills in its declared default 25; and a
`limit` of 0 or 500 fails with `InvalidArgument`. -/
theorem c8_argument_validation :
    (∀ (s : String) (n : Int), 1 ≤ n → n ≤ 100 →
      validateArgs listTransactionsSchema [("customer_id", .str s), ("limit", .int n)]
        = .ok [("customer_id", .str s), ("limit", .int n)]) ∧
    validateArgs listTransactionsSchema [("limit", .int 10)] = .error .missingArgument ∧
    (∀ s : String, validateArgs listTransactionsSchema [("customer_id", .str s)]
      = .ok [("customer_id", .str s), ("limit", .int 25)]) ∧
    validateArgs listTransactionsSchema [("customer_id", .str "c"), ("limit", .int 0)]
      = .error .invalidArgument ∧
    validateArgs listTransactionsSchema [("customer_id", .str "c"), ("limit", .int 500)]
      = .error .invalidArgument := by
  refine ⟨?_, rfl, ?_, rfl, rfl⟩
  · intro s n h1 h2
    simp [validateArgs, knownKeys, mapME, checkParam, listTransactionsSchema, getF,
      typeOk, boundsOk, h1, h2]
  · intro s
    simp [validateArgs, knownKeys, mapME, checkParam, listTransactionsSchema, getF,
      typeOk, boundsOk]

/-- Witness for C8 at a concrete in-bounds call. -/
theorem c8_argument_validation_witness :
    validateArgs listTransactionsSchema [("customer_id", .str "c"), ("limit", .int 50)]
      = .ok [("customer_id", .str "c"), ("limit", .int 50)] ∧
    validateArgs listTransactionsSchema [("customer_id", .str "c")]
      = .ok [("customer_id", .str "c"), ("limit", .int 25)] :=
  ⟨c8_argument_validation.1 "c" 50 (by decide) (by decide),
   c8_argument_validation.2.2.1 "c"⟩

/-- C9: whenever the upstream response status is non-2xx (`r.ok` false),
every handler in both files fails before touching the body — the thrown
error carries the status code in its message and the returned value is the
error alone, never (partial) data. -/
theorem c9_upstream_error_propagation (status : Nat) (body : JsonValue)
    (h : respOk status = false) :
    getCustomerHandler status body = .error ("Punchh error " ++ toString status) ∧
    listTransactionsHandlerServer status body = .error ("Punchh error " ++ toString status) ∧
    listTransactionsHandlerPart0 status body = .error ("Punchh error " ++ toString status) := by
  unfold getCustomerHandler listTransactionsHandlerServer listTransactionsHandlerPart0
  rw [h]
  exact ⟨rfl, rfl, rfl⟩

/-- Witness for C9 at status 404. -/
theorem c9_upstream_error_propagation_witness :
    getCustomerHandler 404 .null = .error ("Punchh error " ++ toString (404 : Nat)) ∧
    listTransactionsHandlerServer 404 .null = .error ("Punchh error " ++ toString (404 : Nat)) ∧
    listTransactionsHandlerPart0 404 .null = .error ("Punchh error " ++ toString (404 : Nat)) :=
  c9_upstream_error_propagation 404 .null (by decide)

/-- C10: `encodeURIComponent` escapes "a/b" to "a%2Fb", and the
`getCustomer` URL (both files) and the `part_000` `listTransactions` URL
embed the escaped identifier — but the `server.ts` `listTransactions` URL
interpolates the raw identifier, so for customer id "a/b" it differs from
the escaped form, contradicting the claim that both fetchers path-escape
the identifier. -/
theorem c10_url_escaping :
    encodeURIComponent "a/b" = "a%2Fb" ∧
    getCustomerUrl "https://b" "a/b" = "https://b/api/v2/customers/a%2Fb" ∧
    listTransactionsUrlPart0 "https://b" "a/b" 25
      = "https://b/api/v2/customers/a%2Fb/transactions?limit=25" ∧
    listTransactionsUrlServer "https://b" "a/b" 25
      = "https://b/api/v2/customers/a/b/transactions?limit=25" ∧
    listTransactionsUrlServer "https://b" "a/b" 25
      ≠ listTransactionsUrlPart0 "https://b" "a/b" 25 := by
  refine ⟨?_, ?_, ?_, ?_, ?_⟩ <;> decide

end PunchhMCP
